import Mathlib

/-!
Shallow embedding of the request-handling core of the repository:
src/api/server.py (class ProxyHandler) and src/api/static_server.py
(class CORSRequestHandler).  Pure Python functions become Lean functions;
the filesystem and the backend HTTP peer are explicit parameters (an Env
record); byte strings are lists of naturals; the sequence of wfile.write
calls is kept as a list of byte strings so that chunking is observable.
The stdlib collaborators (BaseHTTPRequestHandler.send_error, the urllib
transport) are modelled at the granularity the handlers observe them.

String primitives (lowercasing, splitting, integer parsing) are defined
over character lists so that every definition evaluates inside the
kernel; each mirrors the Python string operation named in its comment.
-/

namespace Server

/-- str.lower() for the ASCII header names involved. -/
def strLower (s : String) : String := String.mk (s.toList.map Char.toLower)

/-- str.startswith(pre). -/
def strStartsWith (s pre : String) : Bool := pre.toList.isPrefixOf s.toList

/-- str.endswith(suf). -/
def strEndsWith (s suf : String) : Bool := suf.toList.isSuffixOf s.toList

/-- str.split(c) on a one-character separator, character-list form. -/
def splitCh (c : Char) : List Char → List (List Char)
  | [] => [[]]
  | a :: as =>
    if a = c then [] :: splitCh c as
    else match splitCh c as with
         | [] => [[a]]
         | s :: ss => (a :: s) :: ss

/-- str.split(c) on a one-character separator. -/
def splitOnChar (c : Char) (s : String) : List String := (splitCh c s.toList).map String.mk

/-- Value of one decimal digit. -/
def digitVal (c : Char) : Option Nat :=
  if c = '0' then some 0 else if c = '1' then some 1 else if c = '2' then some 2
  else if c = '3' then some 3 else if c = '4' then some 4 else if c = '5' then some 5
  else if c = '6' then some 6 else if c = '7' then some 7 else if c = '8' then some 8
  else if c = '9' then some 9 else none

/-- Value of a nonempty all-digit character list. -/
def digitsVal : List Char → Option Nat
  | [] => none
  | l => l.foldl (fun acc c => match acc, digitVal c with
      | some n, some d => some (n * 10 + d)
      | _, _ => none) (some 0)

/-- Python int(str): an optionally signed decimal literal; none models
the ValueError raised on anything else.  (Python also strips surrounding
whitespace; modelled for the plain literal forms.) -/
def parseInt? (s : String) : Option Int :=
  match s.toList with
  | '-' :: rest => (digitsVal rest).map (fun n => -(n : Int))
  | '+' :: rest => (digitsVal rest).map (fun n => (n : Int))
  | l => (digitsVal l).map (fun n => (n : Int))

/-- The five HTTP methods the servers accept (BaseHTTPRequestHandler
dispatches on the method name to the matching handler). -/
inductive Method where
  | GET | POST | PUT | DELETE | OPTIONS
deriving DecidableEq, Repr

/-- A header line: name and value.  Names are case-insensitive; values may
repeat, so a header mapping is an ordered list of pairs. -/
abbrev Header := String × String

/-- A byte string. -/
abbrev Bytes := List Nat

/-- Bytes of an ASCII string, for diagnostic bodies. -/
def strBytes (s : String) : Bytes := s.toList.map Char.toNat

/-- An inbound HTTP request as the handler sees it: method (self.command),
raw path including any query string (self.path), the parsed header list
(self.headers), and the inbound byte stream available for body reads
(self.rfile). -/
structure Request where
  method : Method
  path : String
  headers : List Header
  rfile : Bytes
deriving DecidableEq, Repr

/-- A response as flushed to the client: status code, the header lines the
handler emits between send_response and end_headers, and the sequence of
wfile.write calls made for the body.  (send_response also emits Server and
Date lines; those come from the transport layer, are out of the modelled
contract, and carry no CORS or content information.) -/
structure Response where
  status : Nat
  headers : List Header
  writes : List Bytes
deriving DecidableEq, Repr

/-- The body the client receives: concatenation of all writes. -/
def Response.body (r : Response) : Bytes := r.writes.flatten

/-- ProxyHandler.send_cors_headers (src/api/server.py lines 24-27): the
three CORS header lines, in emission order. -/
def corsHeaders : List Header :=
  [("Access-Control-Allow-Origin", "*"),
   ("Access-Control-Allow-Methods", "GET, POST, PUT, DELETE, OPTIONS"),
   ("Access-Control-Allow-Headers", "*")]

/-- Model of the stdlib collaborator BaseHTTPRequestHandler.send_error:
it sends the given status, then the headers Connection: close,
Content-Type: text/html;charset=utf-8 and Content-Length, then an HTML
explanation body interpolating the code and the message.  The exact HTML
template is stdlib detail; the body is modelled as the interpolated
fields.  Note that send_error emits no Access-Control-* header line. -/
def sendError (code : Nat) (message : String) : Response :=
  let body := strBytes ("Error response: code " ++ toString code ++ ", message " ++ message)
  { status := code
    headers := [("Connection", "close"),
                ("Content-Type", "text/html;charset=utf-8"),
                ("Content-Length", toString body.length)]
    writes := [body] }

/-- Result of the urllib.request.urlopen call on the backend, as the
except clauses of proxy_to_php distinguish it: a readable response
(status, headers, full body), an urllib.error.HTTPError carrying a 4xx/5xx
code and an error body, or any other exception (URLError on refused
connection, socket timeout after 30 s, reset), carrying its message. -/
inductive BackendResult where
  | success (status : Nat) (headers : List Header) (body : Bytes)
  | httpError (code : Nat) (body : Bytes)
  | netFailure (msg : String)
deriving DecidableEq, Repr

/-- The request proxy_to_php constructs for the backend. -/
structure OutboundRequest where
  method : Method
  url : String
  headers : List Header
  body : Option Bytes
deriving DecidableEq, Repr

/-- The external collaborators: the filesystem (os.path.isfile plus the
file contents readable at a path string; none when no regular file is
there) and the backend HTTP peer reached through urlopen. -/
structure Env where
  fs : String → Option Bytes
  backend : OutboundRequest → BackendResult

/-- API_DIR = os.path.dirname(os.path.abspath(__file__)): the absolute
directory of the script, fixed at startup.  Modelled as a concrete
absolute path with no trailing separator and no dot components. -/
def API_DIR : String := "/srv/app/api"

/-- The fixed backend origin: PHP_PORT = 8080 on loopback. -/
def backendUrl (path : String) : String := "http://127.0.0.1:8080" ++ path

/-- self.path.split("?")[0]: everything before the first question mark. -/
def stripQuery (p : String) : String := (splitOnChar '?' p).headD p

/-- path.lstrip("/"): remove every leading slash. -/
def lstripSlash (s : String) : String := String.mk (s.toList.dropWhile (fun c => c = '/'))

/-- os.path.join for two components: an absolute second component wins;
otherwise the pieces are joined with exactly one separator. -/
def osPathJoin (a b : String) : String :=
  if strStartsWith b "/" then b
  else if a = "" then b
  else if strEndsWith a "/" then a ++ b
  else a ++ "/" ++ b

/-- The file location serve_static_file computes:
os.path.join(API_DIR, path.lstrip("/")). -/
def staticTarget (path : String) : String := osPathJoin API_DIR (lstripSlash path)

/-- The extension→MIME table mimetypes.guess_type consults after startup:
the platform table restricted to representative entries, plus the explicit
mimetypes.add_type("image/webp", ".webp") performed in the main block of
both servers. -/
def mimeTable : List (String × String) :=
  [(".webp", "image/webp"), (".jpg", "image/jpeg"), (".jpeg", "image/jpeg"),
   (".png", "image/png"), (".gif", "image/gif"), (".html", "text/html"),
   (".htm", "text/html"), (".txt", "text/plain"), (".css", "text/css"),
   (".js", "text/javascript"), (".json", "application/json"),
   (".pdf", "application/pdf"), (".svg", "image/svg+xml"),
   (".mp4", "video/mp4"), (".zip", "application/zip")]

/-- The basename of a path: everything after the last slash. -/
def baseNameOf (s : String) : String := (splitOnChar '/' s).getLastD s

/-- posixpath.splitext, extension part: the suffix from the last dot of
the basename, provided some non-dot character precedes that dot (so a
leading-dot name like .bashrc has no extension); empty when there is no
dot. -/
def splitextExt (basename : String) : String :=
  let rev := basename.toList.reverse
  if rev.contains '.' then
    let extRev := rev.takeWhile (fun c => c ≠ '.')
    let before := rev.drop (extRev.length + 1)
    if before.any (fun c => c ≠ '.') then String.mk ('.' :: extRev.reverse)
    else ""
  else ""

/-- mimetypes.guess_type: look the lowercased extension up in the table. -/
def guessType (path : String) : Option String :=
  let ext := strLower (splitextExt (baseNameOf path))
  (mimeTable.find? (fun e => e.1 == ext)).map Prod.snd

/-- The content type serve_static_file uses: guess_type, defaulting to
application/octet-stream when the table has no entry. -/
def contentTypeFor (path : String) : String :=
  (guessType path).getD "application/octet-stream"

/-- Fuel-driven form of the f.read(8192) loop; the fuel is instantiated
with the length of the input, which bounds the number of reads. -/
def readChunksAux (n : Nat) : Nat → Bytes → List Bytes
  | 0, _ => []
  | _, [] => []
  | fuel + 1, l => l.take n :: readChunksAux n fuel (l.drop n)

/-- The f.read(8192) loop: split a byte string into successive chunks of
n bytes, the last chunk possibly shorter (an empty input produces no
reads). -/
def readChunks (n : Nat) (l : Bytes) : List Bytes := readChunksAux n l.length l

/-- ProxyHandler.serve_static_file (src/api/server.py lines 52-80): join
the path to API_DIR; 404 when no regular file is there; otherwise a 200
response with Content-Type from the MIME table, Content-Length equal to
the file size, the CORS headers, a Cache-Control hint, and the file bytes
streamed in 8192-byte chunks. -/
def serveStaticFile (env : Env) (path : String) : Response :=
  match env.fs (staticTarget path) with
  | none => sendError 404 "File not found"
  | some contents =>
      { status := 200
        headers := [("Content-Type", contentTypeFor (staticTarget path)),
                    ("Content-Length", toString contents.length)]
                   ++ corsHeaders
                   ++ [("Cache-Control", "public, max-age=86400")]
        writes := readChunks 8192 contents }

/-- int(self.headers.get("Content-Length", 0)): the first Content-Length
header (case-insensitive), parsed as a decimal integer; none models the
ValueError a malformed value raises inside the try block; a missing
header yields 0. -/
def contentLength? (headers : List Header) : Option Int :=
  match headers.find? (fun h => strLower h.1 == "content-length") with
  | none => some 0
  | some h => parseInt? h.2

/-- The outbound request proxy_to_php builds: the full raw path appended
to the backend origin, the same method, every inbound header whose
lowercased name is neither host nor content-length, and a body of exactly
Content-Length bytes read from rfile when that length is positive.  none
models the ValueError path of the Content-Length parse (which the
enclosing except turns into a 502). -/
def outboundOf (req : Request) : Option OutboundRequest :=
  match contentLength? req.headers with
  | none => none
  | some cl =>
      some { method := req.method
             url := backendUrl req.path
             headers := req.headers.filter
               (fun h => !(strLower h.1 == "host") && !(strLower h.1 == "content-length"))
             body := if 0 < cl then some (req.rfile.take cl.toNat) else none }

/-- The backend response headers proxy_to_php relays: every header except
Transfer-Encoding, Connection (hop-by-hop) and any name beginning with
Access-Control- (replaced by the own CORS headers). -/
def relayHeaders (hs : List Header) : List Header :=
  hs.filter (fun h =>
    !(strLower h.1 == "transfer-encoding") && !(strLower h.1 == "connection")
      && !(strStartsWith (strLower h.1) "access-control-"))

/-- ProxyHandler.proxy_to_php (src/api/server.py lines 82-127): build the
outbound request; on a readable backend response relay its status, its
filtered headers followed by the own CORS headers, and its full body in a
single write (response.read()); on an HTTPError relay its code, only the
CORS headers, and its body; on any other exception send_error 502 with
the exception message. -/
def proxyToPhp (env : Env) (req : Request) : Response :=
  match outboundOf req with
  | none => sendError 502 "Bad Gateway: invalid literal for int()"
  | some out =>
      match env.backend out with
      | .success st hs body =>
          { status := st
            headers := relayHeaders hs ++ corsHeaders
            writes := [body] }
      | .httpError code body =>
          { status := code
            headers := corsHeaders
            writes := [body] }
      | .netFailure msg => sendError 502 ("Bad Gateway: " ++ msg)

/-- The routing decision of the spec Router. -/
inductive Decision where
  | STATIC | PROXY
deriving DecidableEq, Repr

/-- The routing decision as the do_GET / do_POST / do_PUT / do_DELETE
handlers implement it: a GET whose query-stripped path starts with
/uploads/ is served statically; every other method-path combination is
proxied. -/
def route (m : Method) (rawPath : String) : Decision :=
  match m with
  | .GET => if strStartsWith (stripQuery rawPath) "/uploads/" then .STATIC else .PROXY
  | _ => .PROXY

/-- The whole ProxyHandler: BaseHTTPRequestHandler dispatches on the
method name, so OPTIONS reaches do_OPTIONS (status 200, only the CORS
headers, no body) for every path; do_GET strips the query and serves
/uploads/ paths statically, proxying the rest; do_POST, do_PUT and
do_DELETE proxy unconditionally. -/
def handle (env : Env) (req : Request) : Response :=
  match req.method with
  | .OPTIONS => { status := 200, headers := corsHeaders, writes := [] }
  | .GET =>
      let p := stripQuery req.path
      if strStartsWith p "/uploads/" then serveStaticFile env p
      else proxyToPhp env req
  | _ => proxyToPhp env req

end Server

namespace StaticServer

open Server (Header Bytes Response corsHeaders)

/-- The CORS header lines of src/api/static_server.py: same origin and
headers values, but Allow-Methods lists only GET, OPTIONS. -/
def staticCors : List Header :=
  [("Access-Control-Allow-Origin", "*"),
   ("Access-Control-Allow-Methods", "GET, OPTIONS"),
   ("Access-Control-Allow-Headers", "*")]

/-- CORSRequestHandler.do_OPTIONS (src/api/static_server.py lines 65-70):
status 200, only the CORS header lines, no body write. -/
def doOPTIONS : Response := { status := 200, headers := staticCors, writes := [] }

end StaticServer

namespace Server

/-- Case-insensitive count of a header name in a response; the name is
given lowercased. -/
def countHeader (name : String) (r : Response) : Nat :=
  r.headers.countP (fun h => strLower h.1 == name)

/-- Exactly one occurrence of each of the three CORS header names. -/
def corsExactlyOnce (r : Response) : Bool :=
  countHeader "access-control-allow-origin" r == 1
    && countHeader "access-control-allow-methods" r == 1
    && countHeader "access-control-allow-headers" r == 1

/-- Total number of CORS header lines of any of the three names. -/
def corsTotal (r : Response) : Nat :=
  countHeader "access-control-allow-origin" r
    + countHeader "access-control-allow-methods" r
    + countHeader "access-control-allow-headers" r

/-- Path components of a path string: the nonempty fields between the
slashes, as character lists. -/
def segsOf (s : String) : List (List Char) :=
  (splitCh '/' s.toList).filter (fun seg => seg ≠ [])

/-- One step of POSIX resolution of an absolute path: a dot component
vanishes, a dot-dot component removes the last component kept so far
(at the root it is a no-op), anything else is kept. -/
def normStep (acc : List (List Char)) (seg : List Char) : List (List Char) :=
  if seg = ['.'] then acc
  else if seg = ['.', '.'] then acc.dropLast
  else acc ++ [seg]

/-- The filesystem location an absolute path string denotes: its
components after resolving dot and dot-dot. -/
def resolvedSegs (s : String) : List (List Char) := (segsOf s).foldl normStep []

/-- Outcome of running a streaming handler against a client socket that
may break mid-stream: the status and headers already sent, the body
writes that succeeded, whether the exception escaped the handler (which
would abort the worker thread), and whether an error response was
attempted afterwards. -/
structure StreamOutcome where
  status : Nat
  headers : List Header
  writesDone : List Bytes
  raised : Bool
  errorResponseSent : Bool
deriving DecidableEq, Repr

/-- The two exception kinds a peer that closed the connection raises in
the writing thread. -/
inductive SocketError where
  | brokenPipe | connectionReset
deriving DecidableEq, Repr

/-- serve_static_file streaming an existing file at the given path with
the given contents, against a socket that raises on the write after k
successful ones (k at or beyond the number of chunks means the client
never disconnected): the try block wraps the whole open-and-stream loop
and its except Exception clause only logs, so whatever the write raises,
the handler returns normally, sends nothing further, and keeps the
writes already made. -/
def serveStaticDisconnect (path : String) (contents : Bytes) (k : Nat) : StreamOutcome :=
  { status := 200
    headers := [("Content-Type", contentTypeFor (staticTarget path)),
                ("Content-Length", toString contents.length)]
               ++ corsHeaders
               ++ [("Cache-Control", "public, max-age=86400")]
    writesDone := (readChunks 8192 contents).take k
    raised := false
    errorResponseSent := false }

end Server

namespace StaticServer

open Server

/-- CORSRequestHandler.do_GET of static_server.py streaming an existing
file, against a socket whose write after k successful ones raises the
given exception kind: the loop is wrapped in a try whose except clause
names exactly BrokenPipeError and ConnectionResetError and does nothing,
so either disconnect kind is swallowed. -/
def doGETDisconnect (path : String) (contents : Bytes) (k : Nat) (e : SocketError) :
    StreamOutcome :=
  { status := 200
    headers := [("Content-Type", contentTypeFor path),
                ("Content-Length", toString contents.length)]
               ++ staticCors
               ++ [("Cache-Control", "public, max-age=86400"), ("Connection", "keep-alive")]
    writesDone := (readChunks 65536 contents).take k
    raised := match e with
              | .brokenPipe => false
              | .connectionReset => false
    errorResponseSent := false }

end StaticServer

namespace Server

/-- An environment where no static file exists and the backend is down:
urlopen raises URLError with a refused-connection reason. -/
def envDown : Env :=
  { fs := fun _ => none
    backend := fun _ => .netFailure "Connection refused" }

/-- An environment with a single five-byte upload and a dead backend. -/
def envFiles : Env :=
  { fs := fun p => if p = "/srv/app/api/uploads/car1.webp" then some [10, 20, 30, 40, 50] else none
    backend := fun _ => .netFailure "Connection refused" }

/-- An environment whose backend answers 201 with a JSON header, a
hop-by-hop header and its own CORS header, and a three-byte body. -/
def envCreated : Env :=
  { fs := fun _ => none
    backend := fun _ => .success 201
      [("Content-Type", "application/json"),
       ("Transfer-Encoding", "chunked"),
       ("Connection", "keep-alive"),
       ("Access-Control-Allow-Origin", "http://other.example")]
      [1, 2, 3] }

/-- An environment whose backend answers with an HTTPError 404 carrying
a two-byte body. -/
def envNotFoundBackend : Env :=
  { fs := fun _ => none
    backend := fun _ => .httpError 404 [9, 9] }

/-- An environment whose backend answers 200 with a 20000-byte body,
larger than any streaming chunk. -/
def envBig : Env :=
  { fs := fun _ => none
    backend := fun _ => .success 200 [] (List.replicate 20000 7) }

/-- An environment with the five-byte upload and a backend answering 200
with a two-byte body. -/
def envBoth : Env :=
  { fs := fun p => if p = "/srv/app/api/uploads/car1.webp" then some [10, 20, 30, 40, 50] else none
    backend := fun _ => .success 200 [] [1, 2] }

/-- A concrete POST with a Host header, a Content-Length of five, an
authentication header, and six bytes available on the stream. -/
def reqCars : Request :=
  { method := .POST
    path := "/api/cars?lang=ar"
    headers := [("Host", "localhost:8000"), ("Content-Length", "5"), ("X-Auth", "tok")]
    rfile := [65, 66, 67, 68, 69, 70] }

/-- The outbound request proxy_to_php builds for reqCars. -/
def outCars : OutboundRequest :=
  { method := .POST
    url := "http://127.0.0.1:8080/api/cars?lang=ar"
    headers := [("X-Auth", "tok")]
    body := some [65, 66, 67, 68, 69] }

/-- The outbound request for a bare POST /api/cars with no headers. -/
def outPost : OutboundRequest :=
  { method := .POST, url := "http://127.0.0.1:8080/api/cars", headers := [], body := none }

/-- The outbound request for a bare GET /api/nope with no headers. -/
def outNope : OutboundRequest :=
  { method := .GET, url := "http://127.0.0.1:8080/api/nope", headers := [], body := none }

/-- The outbound request for a bare POST /x with no headers. -/
def outX : OutboundRequest :=
  { method := .POST, url := "http://127.0.0.1:8080/x", headers := [], body := none }

end Server

namespace Server

/-! ### General lemmas about the embedded operations -/

theorem readChunksAux_flatten (n : Nat) (hn : 0 < n) :
    ∀ (fuel : Nat) (l : Bytes), l.length ≤ fuel → (readChunksAux n fuel l).flatten = l := by
  intro fuel
  induction fuel with
  | zero =>
      intro l hl
      have h0 : l = [] := List.length_eq_zero.mp (Nat.le_zero.mp hl)
      subst h0
      rfl
  | succ fuel ih =>
      intro l hl
      cases l with
      | nil => rfl
      | cons x xs =>
          simp only [readChunksAux, List.flatten_cons]
          rw [ih]
          · exact List.take_append_drop n (x :: xs)
          · simp only [List.length_drop, List.length_cons]
            simp only [List.length_cons] at hl
            omega

theorem readChunks_flatten (n : Nat) (hn : 0 < n) (l : Bytes) :
    (readChunks n l).flatten = l :=
  readChunksAux_flatten n hn l.length l (Nat.le_refl _)

theorem readChunksAux_sizes (n : Nat) :
    ∀ (fuel : Nat) (l : Bytes), ∀ c ∈ readChunksAux n fuel l, c.length ≤ n := by
  intro fuel
  induction fuel with
  | zero => intro l c hc; simp [readChunksAux] at hc
  | succ fuel ih =>
      intro l c hc
      cases l with
      | nil => simp [readChunksAux] at hc
      | cons x xs =>
          simp only [readChunksAux, List.mem_cons] at hc
          rcases hc with hc | hc
          · subst hc
            rw [List.length_take]
            exact min_le_left _ _
          · exact ih _ c hc

theorem readChunks_sizes (n : Nat) (l : Bytes) : ∀ c ∈ readChunks n l, c.length ≤ n :=
  readChunksAux_sizes n l.length l

theorem countHeader_map (name : String) (r : Response) :
    countHeader name r = (r.headers.map Prod.fst).countP (fun s => strLower s == name) := by
  unfold countHeader
  rw [List.countP_map]
  rfl

theorem relayHeaders_no_cors (hs : List Header) (name : String)
    (hpre : strStartsWith name "access-control-" = true) :
    (relayHeaders hs).countP (fun h => strLower h.1 == name) = 0 := by
  rw [List.countP_eq_zero]
  intro a ha
  rw [relayHeaders, List.mem_filter] at ha
  have hcond := ha.2
  simp only [Bool.and_eq_true, Bool.not_eq_true'] at hcond
  intro hbeq
  have heq : strLower a.1 = name := eq_of_beq hbeq
  have hc := hcond.2
  rw [heq, hpre] at hc
  exact absurd hc (by simp)

theorem relayHeaders_sub (hs : List Header) :
    ∀ h ∈ relayHeaders hs,
      h ∈ hs ∧ strLower h.1 ≠ "transfer-encoding" ∧ strLower h.1 ≠ "connection"
        ∧ strStartsWith (strLower h.1) "access-control-" = false := by
  intro h hh
  rw [relayHeaders, List.mem_filter] at hh
  have hcond := hh.2
  simp only [Bool.and_eq_true, Bool.not_eq_true', beq_eq_false_iff_ne, ne_eq] at hcond
  exact ⟨hh.1, hcond.1.1, hcond.1.2, hcond.2⟩

theorem sendError_corsTotal (code : Nat) (msg : String) :
    corsTotal (sendError code msg) = 0 := by
  simp only [corsTotal, countHeader_map, sendError, List.map_cons, List.map_nil]
  decide

theorem corsOnly_exactlyOnce (st : Nat) (ws : List Bytes) :
    corsExactlyOnce { status := st, headers := corsHeaders, writes := ws } = true := by
  simp only [corsExactlyOnce, countHeader]
  decide

theorem staticOk_corsExactlyOnce (st : Nat) (ct cl : String) (ws : List Bytes) :
    corsExactlyOnce
      { status := st
        headers := [("Content-Type", ct), ("Content-Length", cl)]
                   ++ corsHeaders ++ [("Cache-Control", "public, max-age=86400")]
        writes := ws } = true := by
  simp only [corsExactlyOnce, countHeader_map, List.map_append, List.map_cons, List.map_nil]
  decide

theorem successHeaders_corsExactlyOnce (st : Nat) (hs : List Header) (ws : List Bytes) :
    corsExactlyOnce
      { status := st, headers := relayHeaders hs ++ corsHeaders, writes := ws } = true := by
  have h1 := relayHeaders_no_cors hs "access-control-allow-origin" (by decide)
  have h2 := relayHeaders_no_cors hs "access-control-allow-methods" (by decide)
  have h3 := relayHeaders_no_cors hs "access-control-allow-headers" (by decide)
  simp only [corsExactlyOnce, countHeader, List.countP_append, h1, h2, h3, Nat.zero_add]
  decide

theorem splitCh_ne_nil (c : Char) (l : List Char) : splitCh c l ≠ [] := by
  cases l with
  | nil => simp [splitCh]
  | cons a as =>
      by_cases h : a = c
      · simp [splitCh, h]
      · simp only [splitCh, if_neg h]
        rcases hsp : splitCh c as with _ | ⟨s, ss⟩ <;> simp

theorem splitCh_cons_of_ne (c x : Char) (l : List Char) (h : ¬x = c) :
    splitCh c (x :: l)
      = match splitCh c l with
        | [] => [[x]]
        | s :: ss => (x :: s) :: ss := by
  simp [splitCh, if_neg h]

theorem splitCh_append (c : Char) (a b : List Char) :
    splitCh c (a ++ c :: b) = splitCh c a ++ splitCh c b := by
  induction a with
  | nil => simp [splitCh]
  | cons x xs ih =>
      by_cases h : x = c
      · subst h
        simp [splitCh, ih]
      · rcases hsp : splitCh c xs with _ | ⟨s, ss⟩
        · exact absurd hsp (splitCh_ne_nil c xs)
        · rw [List.cons_append, splitCh_cons_of_ne c x _ h, splitCh_cons_of_ne c x xs h,
            ih, hsp]
          simp

theorem segsOf_sep_append (a b : String) :
    segsOf (a ++ "/" ++ b) = segsOf a ++ segsOf b := by
  unfold segsOf
  have hd : (a ++ "/" ++ b).toList = a.toList ++ '/' :: b.toList := by
    have h1 : ("/" : String).data = ['/'] := rfl
    simp [String.toList, String.data_append, h1]
  rw [hd, splitCh_append, List.filter_append]

theorem foldl_normStep_clean :
    ∀ (l : List (List Char)), (∀ seg ∈ l, seg ≠ ['.', '.'] ∧ seg ≠ ['.']) →
      ∀ acc, l.foldl normStep acc = acc ++ l := by
  intro l
  induction l with
  | nil => intro _ acc; simp
  | cons s t ih =>
      intro h acc
      have hs := h s (List.mem_cons_self s t)
      simp only [List.foldl_cons]
      rw [show normStep acc s = acc ++ [s] from by simp [normStep, hs.1, hs.2]]
      rw [ih (fun seg hseg => h seg (List.mem_cons_of_mem _ hseg))]
      simp

/-! ### Claim theorems -/

/-- C5: the routing decision is a total pure function of method and
query-stripped path: it is STATIC exactly when the method is GET and the
stripped path starts with /uploads/, it is PROXY for every other
method-path combination, and there is no third outcome. -/
theorem routing_total_pure (m : Method) (p : String) :
    (route m p = .STATIC ↔ (m = .GET ∧ strStartsWith (stripQuery p) "/uploads/" = true))
      ∧ (route m p = .STATIC ∨ route m p = .PROXY) := by
  cases m with
  | GET => by_cases h : strStartsWith (stripQuery p) "/uploads/" = true <;> simp [route, h]
  | POST => simp [route]
  | PUT => simp [route]
  | DELETE => simp [route]
  | OPTIONS => simp [route]

/-- C6: every OPTIONS request, whatever its path, headers and stream,
short-circuits to a 200 response whose header lines are exactly the CORS
lines and whose body is empty; the standalone static server answers its
OPTIONS the same way with its own CORS set. -/
theorem options_preflight (env : Env) (req : Request) (h : req.method = .OPTIONS) :
    handle env req = { status := 200, headers := corsHeaders, writes := [] }
      ∧ (handle env req).body = []
      ∧ corsExactlyOnce (handle env req) = true
      ∧ StaticServer.doOPTIONS
          = { status := 200, headers := StaticServer.staticCors, writes := [] }
      ∧ corsExactlyOnce StaticServer.doOPTIONS = true := by
  obtain ⟨m, path, hdrs, rf⟩ := req
  have hm : m = .OPTIONS := h
  subst hm
  exact ⟨rfl, rfl, corsOnly_exactlyOnce 200 [], rfl, by decide⟩

/-- C6 witness: a concrete OPTIONS request against the environment with
a dead backend. -/
theorem options_preflight_witness :
    handle envDown { method := .OPTIONS, path := "/api/cars", headers := [("Origin", "http://x")], rfile := [] }
        = { status := 200, headers := corsHeaders, writes := [] } :=
  (options_preflight envDown _ rfl).1

/-- C10: when the client connection breaks after k successful body
writes while a static file streams, the handler of that request
terminates without the exception escaping (the worker thread and hence
the process survive), attempts no further error response, and keeps
exactly the first k chunk writes; this holds for serve_static_file of
server.py (which catches every exception) and for do_GET of
static_server.py (which catches both disconnect exception kinds).
Handlers are functions of their own request alone, so no other in-flight
request is affected. -/
theorem client_disconnect_swallowed (path : String) (contents : Bytes) (k : Nat)
    (e : SocketError) :
    (serveStaticDisconnect path contents k).raised = false
      ∧ (serveStaticDisconnect path contents k).errorResponseSent = false
      ∧ (serveStaticDisconnect path contents k).status = 200
      ∧ (serveStaticDisconnect path contents k).writesDone = (readChunks 8192 contents).take k
      ∧ (StaticServer.doGETDisconnect path contents k e).raised = false
      ∧ (StaticServer.doGETDisconnect path contents k e).errorResponseSent = false
      ∧ (StaticServer.doGETDisconnect path contents k e).writesDone
          = (readChunks 65536 contents).take k := by
  cases e <;> exact ⟨rfl, rfl, rfl, rfl, rfl, rfl, rfl⟩

theorem handle_eq_proxy (env : Env) (req : Request)
    (hm : req.method ≠ .OPTIONS)
    (hroute : route req.method req.path = .PROXY) :
    handle env req = proxyToPhp env req := by
  obtain ⟨m, path, hdrs, rf⟩ := req
  cases m with
  | OPTIONS => exact absurd rfl hm
  | GET =>
      by_cases hp : strStartsWith (stripQuery path) "/uploads/" = true
      · simp only [route, hp, if_true] at hroute
        exact Decision.noConfusion hroute
      · simp only [handle]
        rw [if_neg hp]
  | POST => rfl
  | PUT => rfl
  | DELETE => rfl

theorem proxy_cors (env : Env) (req : Request) :
    corsExactlyOnce (proxyToPhp env req) = true
      ∨ (corsTotal (proxyToPhp env req) = 0 ∧ (proxyToPhp env req).status = 502) := by
  cases hout : outboundOf req with
  | none =>
      right
      simp only [proxyToPhp, hout]
      exact ⟨sendError_corsTotal _ _, rfl⟩
  | some out =>
      cases hb : env.backend out with
      | success st hs body =>
          left
          simp only [proxyToPhp, hout, hb]
          exact successHeaders_corsExactlyOnce st hs [body]
      | httpError code body =>
          left
          simp only [proxyToPhp, hout, hb]
          exact corsOnly_exactlyOnce code [body]
      | netFailure msg =>
          right
          simp only [proxyToPhp, hout, hb]
          exact ⟨sendError_corsTotal _ _, rfl⟩

/-- C1 counterexample: the claim says every response, the static 404
included, carries exactly one occurrence of each CORS header; but the
static-miss response for GET /uploads/missing.jpg is produced by
send_error, which emits none of them. -/
theorem cors_once_counterexample :
    (handle envDown
        { method := .GET, path := "/uploads/missing.jpg", headers := [], rfile := [] }).status
        = 404
      ∧ corsTotal (handle envDown
          { method := .GET, path := "/uploads/missing.jpg", headers := [], rfile := [] })
        = 0 := by
  decide

/-- C1 amended: every response either carries exactly one occurrence of
each of the three CORS header names (OPTIONS preflight, static hit,
proxied success, proxied backend HTTP error) or is produced by the
stdlib error helper with status 404 or 502 and carries zero CORS headers
(static miss, malformed Content-Length, network failure). -/
theorem cors_once_amended (env : Env) (req : Request) :
    corsExactlyOnce (handle env req) = true
      ∨ (corsTotal (handle env req) = 0
          ∧ ((handle env req).status = 404 ∨ (handle env req).status = 502)) := by
  obtain ⟨m, path, hdrs, rf⟩ := req
  cases m with
  | OPTIONS => exact Or.inl (corsOnly_exactlyOnce 200 [])
  | GET =>
      by_cases hp : strStartsWith (stripQuery path) "/uploads/" = true
      · have hst : handle env { method := .GET, path := path, headers := hdrs, rfile := rf }
            = serveStaticFile env (stripQuery path) := by
          simp only [handle]
          rw [if_pos hp]
        rw [hst]
        cases hfs : env.fs (staticTarget (stripQuery path)) with
        | none =>
            simp only [serveStaticFile, hfs]
            exact Or.inr ⟨sendError_corsTotal _ _, Or.inl rfl⟩
        | some contents =>
            simp only [serveStaticFile, hfs]
            exact Or.inl (staticOk_corsExactlyOnce _ _ _ _)
      · have hpr : handle env { method := .GET, path := path, headers := hdrs, rfile := rf }
            = proxyToPhp env { method := .GET, path := path, headers := hdrs, rfile := rf } := by
          simp only [handle]
          rw [if_neg hp]
        rw [hpr]
        rcases proxy_cors env { method := .GET, path := path, headers := hdrs, rfile := rf }
          with h | ⟨h1, h2⟩
        · exact Or.inl h
        · exact Or.inr ⟨h1, Or.inr h2⟩
  | POST =>
      rcases proxy_cors env { method := .POST, path := path, headers := hdrs, rfile := rf }
        with h | ⟨h1, h2⟩
      · exact Or.inl h
      · exact Or.inr ⟨h1, Or.inr h2⟩
  | PUT =>
      rcases proxy_cors env { method := .PUT, path := path, headers := hdrs, rfile := rf }
        with h | ⟨h1, h2⟩
      · exact Or.inl h
      · exact Or.inr ⟨h1, Or.inr h2⟩
  | DELETE =>
      rcases proxy_cors env { method := .DELETE, path := path, headers := hdrs, rfile := rf }
        with h | ⟨h1, h2⟩
      · exact Or.inl h
      · exact Or.inr ⟨h1, Or.inr h2⟩

/-- C3: a GET whose query-stripped path lies under /uploads/ yields 404
exactly when no regular file exists at the joined location; on a hit it
yields 200 with the body byte-for-byte equal to the file contents (the
chunked streaming is transparent), the Content-Type from the MIME table,
the Content-Length equal to the byte size, the Cache-Control hint and
exactly one set of CORS headers; a .webp extension maps to image/webp
and an extension absent from the table defaults to
application/octet-stream. -/
theorem static_get_spec (env : Env) (req : Request)
    (hm : req.method = .GET)
    (hp : strStartsWith (stripQuery req.path) "/uploads/" = true) :
    (env.fs (staticTarget (stripQuery req.path)) = none →
        handle env req = sendError 404 "File not found")
      ∧ (∀ contents, env.fs (staticTarget (stripQuery req.path)) = some contents →
          (handle env req).status = 200
            ∧ (handle env req).body = contents
            ∧ (handle env req).headers
                = [("Content-Type", contentTypeFor (staticTarget (stripQuery req.path))),
                   ("Content-Length", toString contents.length)]
                  ++ corsHeaders ++ [("Cache-Control", "public, max-age=86400")]
            ∧ corsExactlyOnce (handle env req) = true)
      ∧ (∀ q, strLower (splitextExt (baseNameOf q)) = ".webp"
            → contentTypeFor q = "image/webp")
      ∧ (∀ q, mimeTable.find? (fun e => e.1 == strLower (splitextExt (baseNameOf q))) = none
            → contentTypeFor q = "application/octet-stream") := by
  obtain ⟨m, path, hdrs, rf⟩ := req
  have hm' : m = .GET := hm
  subst hm'
  simp only at hp
  have hst : handle env { method := .GET, path := path, headers := hdrs, rfile := rf }
      = serveStaticFile env (stripQuery path) := by
    simp only [handle]
    rw [if_pos hp]
  refine ⟨?_, ?_, ?_, ?_⟩
  · intro hfs
    rw [hst]
    simp only [serveStaticFile, hfs]
  · intro contents hfs
    have h2 : serveStaticFile env (stripQuery path)
        = { status := 200
            headers := [("Content-Type", contentTypeFor (staticTarget (stripQuery path))),
                        ("Content-Length", toString contents.length)]
                       ++ corsHeaders ++ [("Cache-Control", "public, max-age=86400")]
            writes := readChunks 8192 contents } := by
      simp only [serveStaticFile, hfs]
    refine ⟨by rw [hst, h2], ?_, by rw [hst, h2], ?_⟩
    · rw [hst, h2]
      exact readChunks_flatten 8192 (by norm_num) contents
    · rw [hst, h2]
      exact staticOk_corsExactlyOnce _ _ _ _
  · intro q hq
    simp only [contentTypeFor, guessType, hq]
    rfl
  · intro q hq
    simp only [contentTypeFor, guessType, hq]
    rfl

/-- C3 witness: GET /uploads/car1.webp?v=2 against the environment
holding a five-byte file there. -/
theorem static_get_spec_witness :
    (handle envFiles
        { method := .GET, path := "/uploads/car1.webp?v=2", headers := [], rfile := [] }).status
        = 200
      ∧ (handle envFiles
          { method := .GET, path := "/uploads/car1.webp?v=2", headers := [], rfile := [] }).body
        = [10, 20, 30, 40, 50] := by
  have t := static_get_spec envFiles
    { method := .GET, path := "/uploads/car1.webp?v=2", headers := [], rfile := [] }
    rfl (by decide)
  have h := t.2.1 [10, 20, 30, 40, 50] (by decide)
  exact ⟨h.1, h.2.1⟩

/-- C2: for a request routed to PROXY whose Content-Length parses, the
outbound request has the same method, the full path and query appended
to the fixed backend origin, every inbound header except Host and
Content-Length, and a body of exactly Content-Length bytes when that
value is positive and no body otherwise; when the backend answers, the
relayed response has its status and body, no Transfer-Encoding,
Connection or backend Access-Control-* header, and the own CORS headers
exactly once, after all other headers. -/
theorem proxy_forwarding (env : Env) (req : Request) (out : OutboundRequest)
    (hm : req.method ≠ .OPTIONS)
    (hroute : route req.method req.path = .PROXY)
    (hout : outboundOf req = some out) :
    out.method = req.method
      ∧ out.url = backendUrl req.path
      ∧ (∀ h : Header, h ∈ out.headers
            ↔ h ∈ req.headers ∧ strLower h.1 ≠ "host" ∧ strLower h.1 ≠ "content-length")
      ∧ (∀ n : Int, contentLength? req.headers = some n →
            (0 < n → out.body = some (req.rfile.take n.toNat))
              ∧ (¬0 < n → out.body = none))
      ∧ (∀ st hs b, env.backend out = .success st hs b →
            handle env req
              = { status := st, headers := relayHeaders hs ++ corsHeaders, writes := [b] }
              ∧ (handle env req).body = b
              ∧ (∀ h ∈ (handle env req).headers,
                    strLower h.1 ≠ "transfer-encoding" ∧ strLower h.1 ≠ "connection"
                      ∧ (strStartsWith (strLower h.1) "access-control-" = true
                            → h ∈ corsHeaders))
              ∧ (∃ pre, (handle env req).headers = pre ++ corsHeaders
                    ∧ ∀ h ∈ pre, strStartsWith (strLower h.1) "access-control-" = false)
              ∧ corsExactlyOnce (handle env req) = true) := by
  cases hcl : contentLength? req.headers with
  | none =>
      rw [outboundOf, hcl] at hout
      exact Option.noConfusion hout
  | some cl =>
      have hrec : out
          = { method := req.method
              url := backendUrl req.path
              headers := req.headers.filter
                (fun h => !(strLower h.1 == "host") && !(strLower h.1 == "content-length"))
              body := if 0 < cl then some (req.rfile.take cl.toNat) else none } := by
        rw [outboundOf, hcl] at hout
        exact (Option.some.inj hout).symm
      refine ⟨by rw [hrec], by rw [hrec], ?_, ?_, ?_⟩
      · intro h
        rw [hrec]
        simp only [List.mem_filter, Bool.and_eq_true, Bool.not_eq_true',
          beq_eq_false_iff_ne, ne_eq]
      · intro n hn
        have hcln : cl = n := Option.some.inj hn
        subst hcln
        rw [hrec]
        constructor
        · intro hpos
          simp [hpos]
        · intro hneg
          simp [hneg]
      · intro st hs b hb
        have hresp : handle env req
            = { status := st, headers := relayHeaders hs ++ corsHeaders, writes := [b] } := by
          rw [handle_eq_proxy env req hm hroute]
          simp only [proxyToPhp, hout, hb]
        refine ⟨hresp, ?_, ?_, ?_, ?_⟩
        · rw [hresp]
          show ([b] : List Bytes).flatten = b
          simp
        · rw [hresp]
          intro h hh
          rcases List.mem_append.mp hh with hrel | hcors


          · have hsub := relayHeaders_sub hs h hrel
            refine ⟨hsub.2.1, hsub.2.2.1, fun hstart => ?_⟩
            rw [hsub.2.2.2] at hstart
            exact Bool.noConfusion hstart
          · have hc : h = ("Access-Control-Allow-Origin", "*")
                ∨ h = ("Access-Control-Allow-Methods", "GET, POST, PUT, DELETE, OPTIONS")
                ∨ h = ("Access-Control-Allow-Headers", "*") := by
              simpa [corsHeaders] using hcors
            rcases hc with hc | hc | hc <;> subst hc <;>
              exact ⟨by decide, by decide, fun _ => by decide⟩
        · refine ⟨relayHeaders hs, by rw [hresp], ?_⟩
          intro h hh
          exact (relayHeaders_sub hs h hh).2.2.2
        · rw [hresp]
          exact successHeaders_corsExactlyOnce st hs [b]

/-- C2 witness: the concrete POST /api/cars with Host, Content-Length
and X-Auth headers against the backend answering 201 with hop-by-hop
and CORS headers of its own. -/
theorem proxy_forwarding_witness :
    outboundOf reqCars = some outCars
      ∧ (handle envCreated reqCars).status = 201
      ∧ (handle envCreated reqCars).body = [1, 2, 3]
      ∧ outCars.body = some [65, 66, 67, 68, 69] := by
  have t := proxy_forwarding envCreated reqCars outCars (by decide) (by decide) (by decide)
  have h := t.2.2.2.2 201
    [("Content-Type", "application/json"), ("Transfer-Encoding", "chunked"),
     ("Connection", "keep-alive"), ("Access-Control-Allow-Origin", "http://other.example")]
    [1, 2, 3] rfl
  exact ⟨by decide, by rw [h.1], h.2.1, by decide⟩

/-- C4 counterexample: the claim says a 502 produced on a network
failure still carries the CORS headers; but the 502 for POST /api/cars
against an unreachable backend goes through send_error, which emits no
CORS header. -/
theorem bad_gateway_counterexample :
    (handle envDown { method := .POST, path := "/api/cars", headers := [], rfile := [] }).status
        = 502
      ∧ corsTotal
          (handle envDown { method := .POST, path := "/api/cars", headers := [], rfile := [] })
        = 0 := by
  decide

/-- C4 amended: on a network-level backend failure the except clause
turns the exception into a send_error 502 response whose body carries
the diagnostic Bad Gateway message, so the handler returns normally and
the process survives; but that response carries zero CORS headers. -/
theorem bad_gateway_amended (env : Env) (req : Request) (out : OutboundRequest) (msg : String)
    (hm : req.method ≠ .OPTIONS)
    (hroute : route req.method req.path = .PROXY)
    (hout : outboundOf req = some out)
    (hb : env.backend out = .netFailure msg) :
    handle env req = sendError 502 ("Bad Gateway: " ++ msg)
      ∧ (handle env req).status = 502
      ∧ (handle env req).writes
          = [strBytes ("Error response: code " ++ toString 502
              ++ ", message " ++ ("Bad Gateway: " ++ msg))]
      ∧ corsTotal (handle env req) = 0 := by
  have hresp : handle env req = sendError 502 ("Bad Gateway: " ++ msg) := by
    rw [handle_eq_proxy env req hm hroute]
    simp only [proxyToPhp, hout, hb]
  refine ⟨hresp, by rw [hresp]; rfl, by rw [hresp]; rfl, ?_⟩
  rw [hresp]
  exact sendError_corsTotal _ _

/-- C4 witness: the concrete bare POST /api/cars against the dead
backend. -/
theorem bad_gateway_amended_witness :
    handle envDown { method := .POST, path := "/api/cars", headers := [], rfile := [] }
        = sendError 502 "Bad Gateway: Connection refused" :=
  (bad_gateway_amended envDown
    { method := .POST, path := "/api/cars", headers := [], rfile := [] }
    outPost "Connection refused" (by decide) (by decide) (by decide) rfl).1

/-- C7: when the backend is reachable but answers an HTTP error status,
the HTTPError clause relays that status verbatim, sends exactly the CORS
headers, and forwards the backend error body; the response is not the
locally generated 502 error page. -/
theorem backend_error_relay (env : Env) (req : Request) (out : OutboundRequest)
    (code : Nat) (ebody : Bytes)
    (hm : req.method ≠ .OPTIONS)
    (hroute : route req.method req.path = .PROXY)
    (hout : outboundOf req = some out)
    (hb : env.backend out = .httpError code ebody) :
    handle env req = { status := code, headers := corsHeaders, writes := [ebody] }
      ∧ (handle env req).status = code
      ∧ (handle env req).body = ebody
      ∧ (handle env req).headers = corsHeaders
      ∧ corsExactlyOnce (handle env req) = true := by
  have hresp : handle env req
      = { status := code, headers := corsHeaders, writes := [ebody] } := by
    rw [handle_eq_proxy env req hm hroute]
    simp only [proxyToPhp, hout, hb]
  refine ⟨hresp, by rw [hresp], ?_, by rw [hresp], ?_⟩
  · rw [hresp]
    show ([ebody] : List Bytes).flatten = ebody
    simp
  · rw [hresp]
    exact corsOnly_exactlyOnce code [ebody]

/-- C7 witness: GET /api/nope against the backend answering HTTPError
404 with a two-byte body. -/
theorem backend_error_relay_witness :
    handle envNotFoundBackend { method := .GET, path := "/api/nope", headers := [], rfile := [] }
        = { status := 404, headers := corsHeaders, writes := [[9, 9]] } :=
  (backend_error_relay envNotFoundBackend
    { method := .GET, path := "/api/nope", headers := [], rfile := [] }
    outNope 404 [9, 9] (by decide) (by decide) (by decide) rfl).1

/-- C8 counterexample: the claim says no input containing traversal
sequences can resolve a file outside the root; but the location computed
for /uploads/../../etc/passwd resolves to /srv/app/etc/passwd, outside
the root /srv/app/api. -/
theorem path_traversal_counterexample :
    staticTarget "/uploads/../../etc/passwd" = "/srv/app/api/uploads/../../etc/passwd"
      ∧ resolvedSegs (staticTarget "/uploads/../../etc/passwd")
          = resolvedSegs "/srv/app/etc/passwd"
      ∧ (resolvedSegs API_DIR).isPrefixOf
          (resolvedSegs (staticTarget "/uploads/../../etc/passwd")) = false := by
  decide

/-- C8 amended: the computed location is the plain textual join of the
root and the stripped path, with no normalization and no containment
check; any input whose components contain no dot-dot and no dot segment
resolves under the root, but inputs containing traversal sequences can
escape it (see the counterexample). -/
theorem path_confinement_amended (rel : String)
    (hsl : strStartsWith rel "/" = false)
    (hclean : ∀ seg ∈ segsOf rel, seg ≠ ['.', '.'] ∧ seg ≠ ['.']) :
    osPathJoin API_DIR rel = API_DIR ++ "/" ++ rel
      ∧ resolvedSegs (osPathJoin API_DIR rel) = resolvedSegs API_DIR ++ segsOf rel
      ∧ (resolvedSegs API_DIR).isPrefixOf (resolvedSegs (osPathJoin API_DIR rel)) = true := by
  have h2 : strEndsWith API_DIR "/" = false := by decide
  have h3 : (API_DIR = "") = False := by simp [API_DIR]
  have hjoin : osPathJoin API_DIR rel = API_DIR ++ "/" ++ rel := by
    simp [osPathJoin, hsl, h2, h3]
  have hres : resolvedSegs (API_DIR ++ "/" ++ rel) = resolvedSegs API_DIR ++ segsOf rel := by
    unfold resolvedSegs
    rw [segsOf_sep_append, List.foldl_append]
    exact foldl_normStep_clean (segsOf rel) hclean _
  refine ⟨hjoin, by rw [hjoin]; exact hres, ?_⟩
  rw [hjoin, hres, List.isPrefixOf_iff_prefix]
  exact List.prefix_append _ _

/-- C8 witness: the clean relative path uploads/car1.webp stays under
the root. -/
theorem path_confinement_witness :
    strStartsWith "uploads/car1.webp" "/" = false
      ∧ (resolvedSegs API_DIR).isPrefixOf
          (resolvedSegs (osPathJoin API_DIR "uploads/car1.webp")) = true :=
  ⟨by decide, (path_confinement_amended "uploads/car1.webp" (by decide) (by decide)).2.2⟩

/-- C9 amended: the static streamer writes an existing file as a
sequence of 8192-byte reads (each write at most 8192 bytes, their
concatenation the file); the proxied backend body, by contrast, is read
in full and written back in one single write, so it is buffered whole
rather than streamed. -/
theorem streaming_amended (env : Env) (path : String) (contents : Bytes) (req : Request)
    (out : OutboundRequest) (st : Nat) (hs : List Header) (b : Bytes)
    (hfs : env.fs (staticTarget path) = some contents)
    (hout : outboundOf req = some out)
    (hb : env.backend out = .success st hs b) :
    (serveStaticFile env path).writes = readChunks 8192 contents
      ∧ (∀ c ∈ (serveStaticFile env path).writes, c.length ≤ 8192)
      ∧ (serveStaticFile env path).body = contents
      ∧ (proxyToPhp env req).writes = [b] := by
  have h1 : serveStaticFile env path
      = { status := 200
          headers := [("Content-Type", contentTypeFor (staticTarget path)),
                      ("Content-Length", toString contents.length)]
                     ++ corsHeaders ++ [("Cache-Control", "public, max-age=86400")]
          writes := readChunks 8192 contents } := by
    simp only [serveStaticFile, hfs]
  refine ⟨by rw [h1], ?_, ?_, ?_⟩
  · rw [h1]
    exact readChunks_sizes 8192 contents
  · rw [h1]
    exact readChunks_flatten 8192 (by norm_num) contents
  · simp only [proxyToPhp, hout, hb]

/-- C9 counterexample: the claim says proxied backend bodies are
streamed without being materialized whole; but a 20000-byte backend body
is relayed as one single write of all 20000 bytes, larger than any
fixed chunk. -/
theorem streaming_counterexample :
    (handle envBig { method := .POST, path := "/api/cars", headers := [], rfile := [] }).writes
        = [List.replicate 20000 7]
      ∧ ∀ c ∈ (handle envBig
          { method := .POST, path := "/api/cars", headers := [], rfile := [] }).writes,
          8192 < c.length := by
  constructor
  · rfl
  · intro c hc
    have hw : (handle envBig
        { method := .POST, path := "/api/cars", headers := [], rfile := [] }).writes
        = [List.replicate 20000 7] := rfl
    rw [hw, List.mem_singleton] at hc
    subst hc
    rw [List.length_replicate]
    norm_num

/-- C9 witness: the five-byte upload streams as a single short chunk
whose concatenation is the file, while the backend body of envBoth is
relayed in one write. -/
theorem streaming_amended_witness :
    (serveStaticFile envBoth "/uploads/car1.webp").writes = readChunks 8192 [10, 20, 30, 40, 50]
      ∧ (serveStaticFile envBoth "/uploads/car1.webp").body = [10, 20, 30, 40, 50]
      ∧ (proxyToPhp envBoth { method := .POST, path := "/x", headers := [], rfile := [] }).writes
          = [[1, 2]] := by
  have t := streaming_amended envBoth "/uploads/car1.webp" [10, 20, 30, 40, 50]
    { method := .POST, path := "/x", headers := [], rfile := [] }
    outX 200 [] [1, 2] (by decide) (by decide) rfl
  exact ⟨t.1, t.2.2.1, t.2.2.2⟩

end Server

section Sanity

open Server

example : corsExactlyOnce (sendError 404 "File not found") = false := by decide

example : corsExactlyOnce { status := 200, headers := corsHeaders, writes := [] } = true := by
  decide

example : staticTarget "/uploads/car1.webp" = "/srv/app/api/uploads/car1.webp" := by decide

example : contentTypeFor "/srv/app/api/uploads/car1.webp" = "image/webp" := by decide

example : contentTypeFor "/srv/app/api/uploads/data.xyz" = "application/octet-stream" := by
  decide

example : readChunks 3 [1, 2, 3, 4, 5, 6, 7] = [[1, 2, 3], [4, 5, 6], [7]] := by decide

example : stripQuery "/api/cars?id=3" = "/api/cars" := by decide

end Sanity
